import Mathlib

/-!
Verification development for the trainingportal-janitor cleanup controller
(`trainingportal_janitor/main.py`). The Python source is shallowly embedded:
pure functions become Lean functions, the effects of one loop iteration
(delete calls issued to the cluster collaborator, log events) are returned
explicitly, and Python exceptions become `Except`/`Option` values.
-/

namespace TrainingportalJanitor

/-- A naive Python `datetime.datetime` value (no timezone), as produced by
`datetime.datetime.strptime(...).replace(tzinfo=None)` in `parse_expiry`. -/
structure PyDateTime where
  year : Nat
  month : Nat
  day : Nat
  hour : Nat
  minute : Nat
  second : Nat
deriving DecidableEq, Repr

/-- Python `datetime` comparison `a < b`: lexicographic on the fields
(year, month, day, hour, minute, second). -/
def dtLt (a b : PyDateTime) : Bool :=
  if a.year ≠ b.year then decide (a.year < b.year)
  else if a.month ≠ b.month then decide (a.month < b.month)
  else if a.day ≠ b.day then decide (a.day < b.day)
  else if a.hour ≠ b.hour then decide (a.hour < b.hour)
  else if a.minute ≠ b.minute then decide (a.minute < b.minute)
  else decide (a.second < b.second)

/-- One directive of a `strptime` format string: a literal character or one
of the numeric fields used by the three patterns in `DATETIME_PATTERNS`. -/
inductive FmtDir
  | lit (c : Char)
  | dirY
  | dirMon
  | dirDay
  | dirHour
  | dirMin
  | dirSec
deriving DecidableEq, Repr

/-- Numeric value of a decimal digit character. -/
def digitVal (c : Char) : Option Nat :=
  if c.isDigit then some (c.toNat - 48) else none

/-- Store a matched numeric field into the date-time being built. -/
def setDir (f : PyDateTime) (d : FmtDir) (n : Nat) : PyDateTime :=
  match d with
  | .dirY => { f with year := n }
  | .dirMon => { f with month := n }
  | .dirDay => { f with day := n }
  | .dirHour => { f with hour := n }
  | .dirMin => { f with minute := n }
  | .dirSec => { f with second := n }
  | .lit _ => f

/-- Admissible values for a two-digit match of each numeric directive,
mirroring CPython `_strptime` regexes: `%m` is `1[0-2]|0[1-9]`, `%d` is
`3[01]|[12]\d|0[1-9]`, `%H` is `2[0-3]|[0-1]\d`, `%M` is `[0-5]\d`, `%S` is
`6[0-1]|[0-5]\d` (each also allows a single digit, see `range1`). -/
def range2 (d : FmtDir) : Nat × Nat :=
  match d with
  | .dirMon => (1, 12)
  | .dirDay => (1, 31)
  | .dirHour => (0, 23)
  | .dirMin => (0, 59)
  | .dirSec => (0, 61)
  | _ => (0, 0)

/-- Admissible values for a one-digit match of each numeric directive
(the trailing `[1-9]` or `\d` alternative of the CPython regexes). -/
def range1 (d : FmtDir) : Nat × Nat :=
  match d with
  | .dirMon => (1, 9)
  | .dirDay => (1, 9)
  | _ => (0, 9)

/-- Match a list of format directives against the character list of the
input, exactly consuming it, with the two-digit alternative of a numeric
directive preferred and the one-digit alternative used when the two-digit
one (or its continuation) fails — the backtracking a regex performs.
`%Y` matches exactly four digits. -/
def matchDirs : List FmtDir → List Char → PyDateTime → Option PyDateTime
  | [], [], acc => some acc
  | [], _ :: _, _ => none
  | .lit _ :: _, [], _ => none
  | .lit c :: ds, x :: xs, acc => if x = c then matchDirs ds xs acc else none
  | .dirY :: ds, cs, acc =>
    match cs with
    | c1 :: c2 :: c3 :: c4 :: rest =>
      match digitVal c1, digitVal c2, digitVal c3, digitVal c4 with
      | some a, some b, some c, some d =>
        matchDirs ds rest (setDir acc .dirY (a * 1000 + b * 100 + c * 10 + d))
      | _, _, _, _ => none
    | _ => none
  | d :: ds, cs, acc =>
    let two : Option PyDateTime :=
      match cs with
      | c1 :: c2 :: rest =>
        match digitVal c1, digitVal c2 with
        | some a, some b =>
          let n := a * 10 + b
          if (range2 d).1 ≤ n ∧ n ≤ (range2 d).2 then
            matchDirs ds rest (setDir acc d n)
          else none
        | _, _ => none
      | _ => none
    match two with
    | some r => some r
    | none =>
      match cs with
      | c1 :: rest =>
        match digitVal c1 with
        | some a =>
          if (range1 d).1 ≤ a ∧ a ≤ (range1 d).2 then
            matchDirs ds rest (setDir acc d a)
          else none
        | none => none
      | [] => none

/-- Gregorian leap year, as in Python's `calendar`/`datetime`. -/
def isLeapYear (y : Nat) : Bool :=
  (y % 4 == 0 && y % 100 != 0) || y % 400 == 0

/-- Days in a month, as validated by the `datetime.datetime` constructor. -/
def daysInMonth (y m : Nat) : Nat :=
  if m = 2 then (if isLeapYear y then 29 else 28)
  else if m = 4 ∨ m = 6 ∨ m = 9 ∨ m = 11 then 30
  else 31

/-- Validation performed by the `datetime.datetime` constructor after the
regex match: year ≥ 1, month 1–12, day within the month, hour ≤ 23,
minute ≤ 59, second ≤ 59 (so the regex's leap seconds 60/61 are rejected). -/
def validDateTime (t : PyDateTime) : Bool :=
  decide (1 ≤ t.year ∧ 1 ≤ t.month ∧ t.month ≤ 12 ∧ 1 ≤ t.day ∧
    t.day ≤ daysInMonth t.year t.month ∧ t.hour ≤ 23 ∧ t.minute ≤ 59 ∧ t.second ≤ 59)

/-- `datetime.datetime.strptime(s, pattern)` for one of the three patterns,
returning `none` where Python raises `ValueError` (regex mismatch, trailing
unconsumed data, or constructor validation failure). Unmatched fields keep
the strptime defaults (year 1900, month 1, day 1, midnight). -/
def strptime (s : String) (dirs : List FmtDir) : Option PyDateTime :=
  match matchDirs dirs s.data
      { year := 1900, month := 1, day := 1, hour := 0, minute := 0, second := 0 } with
  | some t => if validDateTime t then some t else none
  | none => none

/-- The format `"%Y-%m-%dT%H:%M:%SZ"`. -/
def patternFullZ : List FmtDir :=
  [.dirY, .lit '-', .dirMon, .lit '-', .dirDay, .lit 'T',
   .dirHour, .lit ':', .dirMin, .lit ':', .dirSec, .lit 'Z']

/-- The format `"%Y-%m-%dT%H:%M"`. -/
def patternMinutes : List FmtDir :=
  [.dirY, .lit '-', .dirMon, .lit '-', .dirDay, .lit 'T',
   .dirHour, .lit ':', .dirMin]

/-- The format `"%Y-%m-%d"`. -/
def patternDate : List FmtDir :=
  [.dirY, .lit '-', .dirMon, .lit '-', .dirDay]

/-- `DATETIME_PATTERNS = ["%Y-%m-%dT%H:%M:%SZ", "%Y-%m-%dT%H:%M", "%Y-%m-%d"]`. -/
def DATETIME_PATTERNS : List (List FmtDir) :=
  [patternFullZ, patternMinutes, patternDate]

/-- The `ValueError` message raised by `parse_expiry` when no pattern
matches. -/
def parseErrorMessage (expiry : String) : String :=
  "expiry value \"" ++ expiry ++
    "\" does not match format 2022-01-01T13:23:54Z, 2022-01-01T13:23, or 2022-01-01"

/-- The `for pattern in DATETIME_PATTERNS` loop body of `parse_expiry`:
return the first successful parse, `none` if every pattern raises. -/
def tryPatterns : List (List FmtDir) → String → Option PyDateTime
  | [], _ => none
  | p :: ps, s =>
    match strptime s p with
    | some t => some t
    | none => tryPatterns ps s

/-- `parse_expiry(expiry)`: try the three patterns in order; raise
`ValueError` (modelled as `.error`) naming the literal value and the three
accepted formats when none matches. -/
def parse_expiry (expiry : String) : Except String PyDateTime :=
  match tryPatterns DATETIME_PATTERNS expiry with
  | some t => .ok t
  | none => .error (parseErrorMessage expiry)

/-- The fixed annotation key `EXPIRY_ANNOTATION = "janitor/expires"`. -/
def EXPIRY_ANNOTATION_KEY : String := "janitor/expires"

/-- A TrainingPortal custom resource as the janitor reads it: its
`metadata.name` and its `metadata.annotations` mapping (absent when the
object carries no annotations). -/
structure TrainingPortal where
  name : String
  annotations : Option (List (String × String))
deriving DecidableEq, Repr

/-- `trainingportal.metadata.annotations.get(EXPIRY_ANNOTATION) if
trainingportal.metadata.annotations else None`: an absent (or empty, hence
falsy) annotation map yields `None`, otherwise a dictionary lookup. -/
def getExpiryFromAnn (ann : Option (List (String × String))) : Option String :=
  match ann with
  | none => none
  | some m => if m.isEmpty then none else m.lookup EXPIRY_ANNOTATION_KEY

/-- The log lines emitted by `delete` and `handle_trainingportal_expiry`,
and by the driver loop in `main`. -/
inductive LogEvent
  | invalidExpiry (name msg : String)
  | expiredMsg (name expiry : String)
  | willExpire (name expiry : String)
  | dryRunDelete (name : String)
  | deleting (name : String)
  | deleteFailed (name msg : String)
  | sweepFailed (msg : String)
  | runCompleted
deriving DecidableEq, Repr

/-- The observable effect of one call to `delete`: the delete requests
issued to the cluster collaborator (`trainingportal_api.delete`) and the
log lines produced. -/
structure DeleteEffect where
  calls : List String
  logs : List LogEvent
deriving DecidableEq, Repr

/-- `delete(trainingportal_api, resource, dry_run)`. `deleteFails name`
is the collaborator's behaviour for that resource: `some e` when
`trainingportal_api.delete` raises (the exception is caught and logged),
`none` when it succeeds. Under dry-run no request is issued. -/
def delete (deleteFails : String → Option String) (resource : TrainingPortal)
    (dry_run : Bool) : DeleteEffect :=
  if dry_run then
    { calls := [], logs := [.dryRunDelete resource.name] }
  else
    match deleteFails resource.name with
    | none => { calls := [resource.name], logs := [.deleting resource.name] }
    | some e =>
      { calls := [resource.name],
        logs := [.deleting resource.name, .deleteFailed resource.name e] }

/-- The observable outcome of `handle_trainingportal_expiry` on one
resource: the counter dictionary it returns, the delete requests issued,
the log lines, and whether the `delete` executor was invoked at all. -/
structure HandleResult where
  counter : List (String × Nat)
  calls : List String
  logs : List LogEvent
  executorInvoked : Bool
deriving DecidableEq, Repr

/-- The result of the `if expiry:`-is-falsy paths (absent map, missing
key, or empty-string value) and of every non-counting path's skeleton. -/
def emptyHandleResult : HandleResult :=
  { counter := [], calls := [], logs := [], executorInvoked := false }

/-- `handle_trainingportal_expiry(trainingportal_api, trainingportal,
dry_run)` with `now = datetime.datetime.utcnow()` passed explicitly:
read the expiry annotation; skip when it is falsy; on `ValueError` from
`parse_expiry` log and return the empty counter; otherwise count
`trainingportal-with-expiry`, and when `now > expiry_timestamp` log,
invoke `delete` and also count `trainingportal-deleted`. -/
def handle_trainingportal_expiry (deleteFails : String → Option String)
    (now : PyDateTime) (trainingportal : TrainingPortal) (dry_run : Bool) :
    HandleResult :=
  match getExpiryFromAnn trainingportal.annotations with
  | none => emptyHandleResult
  | some expiry =>
    if expiry = "" then emptyHandleResult
    else
      match parse_expiry expiry with
      | .error e =>
        { counter := [], calls := [],
          logs := [.invalidExpiry trainingportal.name e], executorInvoked := false }
      | .ok expiry_timestamp =>
        if dtLt expiry_timestamp now then
          let eff := delete deleteFails trainingportal dry_run
          { counter := [("trainingportal-with-expiry", 1), ("trainingportal-deleted", 1)],
            calls := eff.calls,
            logs := .expiredMsg trainingportal.name expiry :: eff.logs,
            executorInvoked := true }
        else
          { counter := [("trainingportal-with-expiry", 1)], calls := [],
            logs := [.willExpire trainingportal.name expiry],
            executorInvoked := false }

/-- The spec's `ExpiryDecision` datatype. -/
inductive ExpiryDecision
  | noExpiry
  | pending (ts : PyDateTime)
  | expired (ts : PyDateTime)
  | invalid (reason : String)
deriving DecidableEq, Repr

/-- The expiry decision the code's control flow makes for a given
annotation map and current time: the branch of
`handle_trainingportal_expiry` the resource takes. Expired means
`now > expiry_timestamp`, i.e. the parsed timestamp is strictly before
`now`. -/
def evaluate (ann : Option (List (String × String))) (now : PyDateTime) :
    ExpiryDecision :=
  match getExpiryFromAnn ann with
  | none => .noExpiry
  | some expiry =>
    if expiry = "" then .noExpiry
    else
      match parse_expiry expiry with
      | .error e => .invalid e
      | .ok ts => if dtLt ts now then .expired ts else .pending ts

/-- `Counter` point update: add `v` to key `k`, appending the key when it
is new (Python dict insertion order). -/
def counterAdd (acc : List (String × Nat)) (k : String) (v : Nat) :
    List (String × Nat) :=
  match acc with
  | [] => [(k, v)]
  | (k0, v0) :: rest =>
    if k0 = k then (k0, v0 + v) :: rest else (k0, v0) :: counterAdd rest k v

/-- `counter.update(d)`: fold the per-resource dictionary into the sweep's
`Counter`, summing counts per key. -/
def counterUpdate (acc upd : List (String × Nat)) : List (String × Nat) :=
  upd.foldl (fun a kv => counterAdd a kv.1 kv.2) acc

/-- The observable outcome of one `sweep_objects` run. -/
structure SweepResult where
  counter : List (String × Nat)
  calls : List String
  logs : List LogEvent
deriving DecidableEq, Repr

/-- The body of the `for trainingportal in trainingportals.items` loop:
`counter.update(handle_trainingportal_expiry(...))`, with the delete calls
and log lines accumulated alongside. -/
def sweepStep (deleteFails : String → Option String) (now : PyDateTime)
    (dry_run : Bool) (acc : SweepResult) (tp : TrainingPortal) : SweepResult :=
  let r := handle_trainingportal_expiry deleteFails now tp dry_run
  { counter := counterUpdate acc.counter r.counter,
    calls := acc.calls ++ r.calls,
    logs := acc.logs ++ r.logs }

/-- `sweep_objects(client, tp_api_version, counter, dry_run)`: an exception
from resource discovery or listing (`client.resources.get`,
`trainingportal_api.get()`) propagates (`.error`); otherwise every listed
resource is processed by `handle_trainingportal_expiry` and the counter is
accumulated with `counter.update`. -/
def sweep_objects (listing : Except String (List TrainingPortal))
    (deleteFails : String → Option String) (now : PyDateTime) (dry_run : Bool) :
    Except String SweepResult :=
  match listing with
  | .error e => .error e
  | .ok trainingportals =>
    .ok (trainingportals.foldl (sweepStep deleteFails now dry_run)
      { counter := [], calls := [], logs := [] })

/-- `get_in_cluster_with_fallback()`: try `config.load_incluster_config()`,
fall back to `config.load_kube_config()` on any exception. The loaded
configuration is bound to the local `config_obj`, but the function body
ends without a `return` statement, so every successful execution returns
`None`; only an exception from the fallback loader propagates. -/
def get_in_cluster_with_fallback {α : Type}
    (load_incluster_config load_kube_config : Except String α) :
    Except String (Option α) :=
  match load_incluster_config with
  | .ok _ => .ok none
  | .error _ =>
    match load_kube_config with
    | .ok _ => .ok none
    | .error e => .error e

/-- What the driver does after one pass of the `while True` body: return
from `main` (no sleep), or sleep for `args.interval` seconds and loop. -/
inductive LoopAction
  | stop
  | sleepFor (seconds : Nat)
deriving DecidableEq, Repr

/-- The observable outcome of one iteration of the `while True` loop in
`main`. -/
structure IterationResult where
  logs : List LogEvent
  action : LoopAction
deriving DecidableEq, Repr

/-- One iteration of the `while True` loop in `main`: run
`sweep_objects` under the `try`, logging either the completed-run stats or
— on any exception, including a listing failure — the caught exception;
then return when `args.once or handler.shutdown_now`, else sleep for
`args.interval`. -/
def main_loop_iteration (listing : Except String (List TrainingPortal))
    (deleteFails : String → Option String) (now : PyDateTime) (dry_run : Bool)
    (once shutdown_now : Bool) (interval : Nat) : IterationResult :=
  let logs :=
    match sweep_objects listing deleteFails now dry_run with
    | .ok _ => [.runCompleted]
    | .error e => [.sweepFailed e]
  { logs := logs
    action := if once || shutdown_now then .stop else .sleepFor interval }

/-! ## Helper lemmas -/

/-- The empty string matches none of the three patterns. -/
theorem parse_expiry_empty : parse_expiry "" = .error (parseErrorMessage "") := rfl

/-- A value that parses successfully is not the empty string. -/
theorem parse_expiry_ok_ne_empty {v : String} {ts : PyDateTime}
    (h : parse_expiry v = .ok ts) : v ≠ "" := by
  rintro rfl
  rw [parse_expiry_empty] at h
  exact Except.noConfusion h

/-- Reading the expiry annotation from a singleton map holding only the
expiry key. -/
theorem getExpiryFromAnn_singleton (v : String) :
    getExpiryFromAnn (some [(EXPIRY_ANNOTATION_KEY, v)]) = some v := by
  simp [getExpiryFromAnn, List.lookup]

/-! ## C1: expiry boundary -/

/-- C1 counterexample: the claim says a timestamp exactly equal to `now`
is Expired and triggers deletion, but the code tests `now >
expiry_timestamp` strictly: with the annotation `"2022-01-01T13:23:54Z"`
and `now` equal to that very instant, the decision is `Pending` and the
deletion executor is not invoked. -/
theorem C1_equal_timestamp_is_pending :
    parse_expiry "2022-01-01T13:23:54Z" = .ok ⟨2022, 1, 1, 13, 23, 54⟩ ∧
    evaluate (some [(EXPIRY_ANNOTATION_KEY, "2022-01-01T13:23:54Z")]) ⟨2022, 1, 1, 13, 23, 54⟩
      = .pending ⟨2022, 1, 1, 13, 23, 54⟩ ∧
    (handle_trainingportal_expiry (fun _ => none) ⟨2022, 1, 1, 13, 23, 54⟩
        ⟨"portal", some [(EXPIRY_ANNOTATION_KEY, "2022-01-01T13:23:54Z")]⟩ false).executorInvoked
      = false := by
  refine ⟨?_, ?_, ?_⟩ <;> rfl

/-- C1 (amended): for every annotation value that parses, the resource is
classified Expired (and the deletion executor invoked) iff the parsed
timestamp is strictly before `now`, and Pending (no deletion) iff the
parsed timestamp is greater than or equal to `now`; a timestamp exactly
equal to `now` is Pending. -/
theorem C1_expired_iff_strictly_before (v nm : String) (ts now : PyDateTime)
    (df : String → Option String) (dry : Bool)
    (h : parse_expiry v = .ok ts) :
    (evaluate (some [(EXPIRY_ANNOTATION_KEY, v)]) now = .expired ts ↔ dtLt ts now = true) ∧
    (evaluate (some [(EXPIRY_ANNOTATION_KEY, v)]) now = .pending ts ↔ dtLt ts now = false) ∧
    (handle_trainingportal_expiry df now ⟨nm, some [(EXPIRY_ANNOTATION_KEY, v)]⟩ dry).executorInvoked
      = dtLt ts now := by
  have hv : v ≠ "" := parse_expiry_ok_ne_empty h
  simp only [evaluate, handle_trainingportal_expiry, getExpiryFromAnn_singleton, hv, if_neg, h]
  cases hlt : dtLt ts now <;> simp [hlt, hv]

/-- Witness for C1: the spec's own example — annotation
`"2022-01-01T13:23:54Z"`, `now` = 2023-01-01 — is Expired. -/
theorem C1_expired_iff_strictly_before_witness :
    evaluate (some [(EXPIRY_ANNOTATION_KEY, "2022-01-01T13:23:54Z")]) ⟨2023, 1, 1, 0, 0, 0⟩
      = .expired ⟨2022, 1, 1, 13, 23, 54⟩ :=
  (C1_expired_iff_strictly_before "2022-01-01T13:23:54Z" "portal"
    ⟨2022, 1, 1, 13, 23, 54⟩ ⟨2023, 1, 1, 0, 0, 0⟩ (fun _ => none) false rfl).1.mpr rfl

/-! ## C2: counters for an expired resource -/

/-- C2 counterexample: the claim says `resources-deleted` is not
incremented when the deletion executor reports a failure, but `delete`
swallows the collaborator's exception, so the deleted counter is set even
then: here the executor logs a failure for `tp1` and the returned summary
still counts one deletion. -/
theorem C2_failed_delete_still_counted :
    (handle_trainingportal_expiry (fun _ => some "boom") ⟨2023, 1, 1, 0, 0, 0⟩
        ⟨"tp1", some [(EXPIRY_ANNOTATION_KEY, "2022-01-01")]⟩ false).counter
      = [("trainingportal-with-expiry", 1), ("trainingportal-deleted", 1)] ∧
    (handle_trainingportal_expiry (fun _ => some "boom") ⟨2023, 1, 1, 0, 0, 0⟩
        ⟨"tp1", some [(EXPIRY_ANNOTATION_KEY, "2022-01-01")]⟩ false).logs
      = [.expiredMsg "tp1" "2022-01-01", .deleting "tp1", .deleteFailed "tp1" "boom"] :=
  ⟨rfl, rfl⟩

/-- C2 (amended): for every expired resource the per-resource summary is
exactly `{trainingportal-with-expiry: 1, trainingportal-deleted: 1}` —
both counters incremented exactly once — regardless of whether the
deletion succeeded, failed, or was simulated under dry-run (the executor
outcome `df` and the dry-run flag are arbitrary here). -/
theorem C2_expired_counters (df : String → Option String) (now ts : PyDateTime)
    (tp : TrainingPortal) (dry : Bool) (v : String)
    (hget : getExpiryFromAnn tp.annotations = some v)
    (h : parse_expiry v = .ok ts) (hlt : dtLt ts now = true) :
    handle_trainingportal_expiry df now tp dry =
      { counter := [("trainingportal-with-expiry", 1), ("trainingportal-deleted", 1)],
        calls := (delete df tp dry).calls,
        logs := .expiredMsg tp.name v :: (delete df tp dry).logs,
        executorInvoked := true } := by
  have hv : v ≠ "" := parse_expiry_ok_ne_empty h
  simp [handle_trainingportal_expiry, hget, hv, h, hlt]

/-- Witness for C2: a concrete expired resource whose deletion fails
still yields the summary `{trainingportal-with-expiry: 1,
trainingportal-deleted: 1}`. -/
theorem C2_expired_counters_witness :
    handle_trainingportal_expiry (fun _ => some "boom") ⟨2023, 1, 1, 0, 0, 0⟩
        ⟨"tp1", some [(EXPIRY_ANNOTATION_KEY, "2022-01-01")]⟩ false =
      { counter := [("trainingportal-with-expiry", 1), ("trainingportal-deleted", 1)],
        calls := ["tp1"],
        logs := [.expiredMsg "tp1" "2022-01-01", .deleting "tp1", .deleteFailed "tp1" "boom"],
        executorInvoked := true } :=
  C2_expired_counters (fun _ => some "boom") ⟨2023, 1, 1, 0, 0, 0⟩ ⟨2022, 1, 1, 0, 0, 0⟩
    ⟨"tp1", some [(EXPIRY_ANNOTATION_KEY, "2022-01-01")]⟩ false "2022-01-01"
    (getExpiryFromAnn_singleton "2022-01-01") rfl rfl

/-! ## C3: deletion iff Expired -/

/-- C3: the deletion executor is invoked for a resource iff the code's
expiry decision for it is Expired; with an absent, empty, unparseable
(Invalid) or not-yet-reached (Pending) expiry annotation the resource is
never passed to the executor. -/
theorem C3_executor_iff_expired (df : String → Option String) (now : PyDateTime)
    (tp : TrainingPortal) (dry : Bool) :
    (handle_trainingportal_expiry df now tp dry).executorInvoked = true
      ↔ ∃ ts, evaluate tp.annotations now = .expired ts := by
  simp only [handle_trainingportal_expiry, evaluate]
  cases hg : getExpiryFromAnn tp.annotations with
  | none => simp [emptyHandleResult]
  | some v =>
    by_cases hv : v = ""
    · simp [hv, emptyHandleResult]
    · simp only [hv, if_false, reduceIte]
      cases hp : parse_expiry v with
      | error e => simp
      | ok ts => cases hlt : dtLt ts now <;> simp [hlt]

/-! ## C4: parse priority and failure handling -/

/-- C4: `parse_expiry` tries the three formats in strict priority order —
full date-time with seconds and trailing Z, date-time with minutes only,
date only — returning the first successful parse; when none matches it
fails with an error naming the literal input and the three accepted
formats, and that failure is contained: the resource is only logged,
no counter is touched and the deletion executor is never invoked. -/
theorem C4_parse_priority_and_containment (s : String) :
    (∀ t, strptime s patternFullZ = some t → parse_expiry s = .ok t) ∧
    (strptime s patternFullZ = none → ∀ t, strptime s patternMinutes = some t →
      parse_expiry s = .ok t) ∧
    (strptime s patternFullZ = none → strptime s patternMinutes = none →
      ∀ t, strptime s patternDate = some t → parse_expiry s = .ok t) ∧
    (strptime s patternFullZ = none → strptime s patternMinutes = none →
      strptime s patternDate = none →
      parse_expiry s = .error ("expiry value \"" ++ s ++
        "\" does not match format 2022-01-01T13:23:54Z, 2022-01-01T13:23, or 2022-01-01")) ∧
    (∀ e nm ann df now dry, parse_expiry s = .error e →
      getExpiryFromAnn ann = some s → s ≠ "" →
      handle_trainingportal_expiry df now ⟨nm, ann⟩ dry =
        { counter := [], calls := [], logs := [.invalidExpiry nm e],
          executorInvoked := false }) := by
  refine ⟨?_, ?_, ?_, ?_, ?_⟩
  · intro t ht; simp [parse_expiry, DATETIME_PATTERNS, tryPatterns, ht]
  · intro h1 t ht; simp [parse_expiry, DATETIME_PATTERNS, tryPatterns, h1, ht]
  · intro h1 h2 t ht; simp [parse_expiry, DATETIME_PATTERNS, tryPatterns, h1, h2, ht]
  · intro h1 h2 h3
    simp [parse_expiry, DATETIME_PATTERNS, tryPatterns, h1, h2, h3, parseErrorMessage]
  · intro e nm ann df now dry hp hg hs
    simp [handle_trainingportal_expiry, hg, hs, hp]

/-- Witness for C4: the spec's example `"not-a-date"` fails with the
message naming the value and the three formats, and the resource is
ignored apart from the log line. -/
theorem C4_parse_priority_and_containment_witness :
    parse_expiry "not-a-date" = .error ("expiry value \"" ++ "not-a-date" ++
      "\" does not match format 2022-01-01T13:23:54Z, 2022-01-01T13:23, or 2022-01-01") ∧
    handle_trainingportal_expiry (fun _ => none) ⟨2023, 1, 1, 0, 0, 0⟩
        ⟨"tp1", some [(EXPIRY_ANNOTATION_KEY, "not-a-date")]⟩ false =
      { counter := [], calls := [],
        logs := [.invalidExpiry "tp1" (parseErrorMessage "not-a-date")],
        executorInvoked := false } := by
  have h := C4_parse_priority_and_containment "not-a-date"
  exact ⟨h.2.2.2.1 rfl rfl rfl,
    h.2.2.2.2 (parseErrorMessage "not-a-date") "tp1" _ (fun _ => none) ⟨2023, 1, 1, 0, 0, 0⟩ false
      rfl (getExpiryFromAnn_singleton "not-a-date") (by decide)⟩

/-! ## C5: absent annotation -/

/-- C5: with an absent annotation map, or a map lacking the expiry key,
the decision is NoExpiry and the resource contributes the empty summary:
no counter, no delete call, no log line, executor not invoked. -/
theorem C5_absent_annotation_no_expiry (df : String → Option String) (now : PyDateTime)
    (dry : Bool) (nm : String) (ann : Option (List (String × String)))
    (h : ann = none ∨ ∃ m, ann = some m ∧ m.lookup EXPIRY_ANNOTATION_KEY = none) :
    evaluate ann now = .noExpiry ∧
    handle_trainingportal_expiry df now ⟨nm, ann⟩ dry = emptyHandleResult := by
  have hg : getExpiryFromAnn ann = none := by
    rcases h with rfl | ⟨m, rfl, hm⟩
    · rfl
    · simp [getExpiryFromAnn, hm]
  exact ⟨by simp [evaluate, hg], by simp [handle_trainingportal_expiry, hg]⟩

/-- Witness for C5: a resource annotated only with an unrelated key. -/
theorem C5_absent_annotation_no_expiry_witness :
    evaluate (some [("other", "1")]) ⟨2023, 1, 1, 0, 0, 0⟩ = .noExpiry ∧
    handle_trainingportal_expiry (fun _ => none) ⟨2023, 1, 1, 0, 0, 0⟩
      ⟨"tp1", some [("other", "1")]⟩ false = emptyHandleResult :=
  C5_absent_annotation_no_expiry (fun _ => none) ⟨2023, 1, 1, 0, 0, 0⟩ false "tp1"
    (some [("other", "1")]) (Or.inr ⟨[("other", "1")], rfl, rfl⟩)

/-! ## Sweep accumulation -/

/-- The sweep fold accumulates exactly the per-resource delete calls and
log lines, in listing order. -/
theorem sweep_foldl_effects (df : String → Option String) (now : PyDateTime) (dry : Bool) :
    ∀ (tps : List TrainingPortal) (acc : SweepResult),
      ((tps.foldl (sweepStep df now dry) acc).calls
        = acc.calls ++ (tps.map fun tp => (handle_trainingportal_expiry df now tp dry).calls).flatten) ∧
      ((tps.foldl (sweepStep df now dry) acc).logs
        = acc.logs ++ (tps.map fun tp => (handle_trainingportal_expiry df now tp dry).logs).flatten)
  | [], acc => by simp
  | tp :: tps, acc => by
    have ih := sweep_foldl_effects df now dry tps (sweepStep df now dry acc tp)
    refine ⟨?_, ?_⟩
    · rw [List.foldl_cons, ih.1]; simp [sweepStep, List.append_assoc]
    · rw [List.foldl_cons, ih.2]; simp [sweepStep, List.append_assoc]

/-- Under dry-run, a single resource never produces a delete call. -/
theorem handle_dry_run_calls (df : String → Option String) (now : PyDateTime)
    (tp : TrainingPortal) :
    (handle_trainingportal_expiry df now tp true).calls = [] := by
  unfold handle_trainingportal_expiry
  cases getExpiryFromAnn tp.annotations with
  | none => rfl
  | some v =>
    by_cases hv : v = ""
    · simp [hv, emptyHandleResult]
    · simp only [hv, reduceIte]
      cases parse_expiry v with
      | error e => rfl
      | ok ts => cases hlt : dtLt ts now <;> simp [hlt, delete, emptyHandleResult]

/-! ## C6: dry-run frame -/

/-- C6: with the dry-run flag set, no delete request is ever issued to the
collaborator — neither by `delete` itself, nor by a single resource's
handling, nor across a whole sweep — yet an expired resource still gets
`trainingportal-deleted` incremented and the simulated deletion logged
distinctly as a dry-run action. -/
theorem C6_dry_run_frame (df : String → Option String) (now : PyDateTime)
    (tp : TrainingPortal) :
    (handle_trainingportal_expiry df now tp true).calls = [] ∧
    delete df tp true = { calls := [], logs := [.dryRunDelete tp.name] } ∧
    (∀ v ts, getExpiryFromAnn tp.annotations = some v → parse_expiry v = .ok ts →
      dtLt ts now = true →
      (handle_trainingportal_expiry df now tp true).counter
        = [("trainingportal-with-expiry", 1), ("trainingportal-deleted", 1)] ∧
      (handle_trainingportal_expiry df now tp true).logs
        = [.expiredMsg tp.name v, .dryRunDelete tp.name]) ∧
    (∀ tps s, sweep_objects (.ok tps) df now true = .ok s → s.calls = []) := by
  refine ⟨handle_dry_run_calls df now tp, rfl, ?_, ?_⟩
  · intro v ts hg hp hlt
    have hv : v ≠ "" := parse_expiry_ok_ne_empty hp
    constructor <;> simp [handle_trainingportal_expiry, hg, hv, hp, hlt, delete]
  · intro tps s hs
    have hs2 : s = tps.foldl (sweepStep df now true) { counter := [], calls := [], logs := [] } := by
      simpa [sweep_objects] using hs.symm
    rw [hs2, (sweep_foldl_effects df now true tps _).1]
    simp [List.flatten_eq_nil_iff, handle_dry_run_calls]

/-- Witness for C6: a concrete expired resource under dry-run — counted
as deleted and logged as simulated, no call to the collaborator. -/
theorem C6_dry_run_frame_witness :
    (handle_trainingportal_expiry (fun _ => none) ⟨2023, 1, 1, 0, 0, 0⟩
        ⟨"tp1", some [(EXPIRY_ANNOTATION_KEY, "2022-01-01")]⟩ true).counter
      = [("trainingportal-with-expiry", 1), ("trainingportal-deleted", 1)] ∧
    (handle_trainingportal_expiry (fun _ => none) ⟨2023, 1, 1, 0, 0, 0⟩
        ⟨"tp1", some [(EXPIRY_ANNOTATION_KEY, "2022-01-01")]⟩ true).logs
      = [.expiredMsg "tp1" "2022-01-01", .dryRunDelete "tp1"] :=
  (C6_dry_run_frame (fun _ => none) ⟨2023, 1, 1, 0, 0, 0⟩
      ⟨"tp1", some [(EXPIRY_ANNOTATION_KEY, "2022-01-01")]⟩).2.2.1
    "2022-01-01" ⟨2022, 1, 1, 0, 0, 0⟩ (getExpiryFromAnn_singleton "2022-01-01") rfl rfl

/-! ## C7: error containment scopes -/

/-- C7: a listing failure propagates out of `sweep_objects` unchanged; a
successful listing always yields a completed sweep in which every listed
resource's delete calls and log lines appear (one resource's parse or
delete failure cannot suppress another's processing, since effects are
the concatenation of the per-resource effects); and the driver catches a
failed sweep, logs it, and takes exactly the same continue-or-stop action
as after a successful sweep. -/
theorem C7_error_containment (df : String → Option String) (now : PyDateTime) (dry : Bool) :
    (∀ e, sweep_objects (.error e) df now dry = .error e) ∧
    (∀ tps, ∃ s, sweep_objects (.ok tps) df now dry = .ok s ∧
      s.calls = (tps.map fun tp => (handle_trainingportal_expiry df now tp dry).calls).flatten ∧
      s.logs = (tps.map fun tp => (handle_trainingportal_expiry df now tp dry).logs).flatten) ∧
    (∀ e once shutdown_now interval,
      (main_loop_iteration (.error e) df now dry once shutdown_now interval).logs
        = [.sweepFailed e] ∧
      (main_loop_iteration (.error e) df now dry once shutdown_now interval).action
        = (main_loop_iteration (.ok []) df now dry once shutdown_now interval).action) := by
  refine ⟨fun e => rfl, ?_, ?_⟩
  · intro tps
    refine ⟨_, rfl, ?_, ?_⟩
    · simpa using (sweep_foldl_effects df now dry tps { counter := [], calls := [], logs := [] }).1
    · simpa using (sweep_foldl_effects df now dry tps { counter := [], calls := [], logs := [] }).2
  · intro e once shutdown_now interval
    exact ⟨rfl, rfl⟩

/-! ## C8: stop without sleeping -/

/-- C8: after any pass of the loop body — the sweep outcome `listing` is
arbitrary — the driver returns (`.stop`, no sleep) exactly when run-once
is configured or the shutdown flag is set, and otherwise sleeps for the
configured interval before the next iteration. -/
theorem C8_stop_without_sleep (listing : Except String (List TrainingPortal))
    (df : String → Option String) (now : PyDateTime) (dry once shutdown_now : Bool)
    (interval : Nat) :
    ((once || shutdown_now) = true →
      (main_loop_iteration listing df now dry once shutdown_now interval).action = .stop) ∧
    ((once || shutdown_now) = false →
      (main_loop_iteration listing df now dry once shutdown_now interval).action
        = .sleepFor interval) := by
  constructor <;> intro h <;> simp [main_loop_iteration, h]

/-- Witness for C8: with run-once set the driver stops without sleeping,
even after a failed sweep; with neither flag set it sleeps the interval. -/
theorem C8_stop_without_sleep_witness :
    (main_loop_iteration (.error "listing failed") (fun _ => none) ⟨2023, 1, 1, 0, 0, 0⟩
        false true false 30).action = .stop ∧
    (main_loop_iteration (.ok []) (fun _ => none) ⟨2023, 1, 1, 0, 0, 0⟩
        false false false 30).action = .sleepFor 30 :=
  ⟨(C8_stop_without_sleep (.error "listing failed") (fun _ => none) ⟨2023, 1, 1, 0, 0, 0⟩
      false true false 30).1 rfl,
   (C8_stop_without_sleep (.ok []) (fun _ => none) ⟨2023, 1, 1, 0, 0, 0⟩
      false false false 30).2 rfl⟩

/-! ## C9: credential loading returns None -/

/-- C9: `get_in_cluster_with_fallback` never returns a loaded
configuration: every execution either returns `None` (its body has no
return statement) or raises from the fallback loader — so the API client
in `main` is always constructed with `configuration=None`. -/
theorem C9_fallback_returns_none {α : Type} (load_incluster load_kube : Except String α) :
    get_in_cluster_with_fallback load_incluster load_kube = .ok none ∨
    ∃ e, get_in_cluster_with_fallback load_incluster load_kube = .error e := by
  cases load_incluster with
  | ok a => exact Or.inl rfl
  | error e =>
    cases load_kube with
    | ok a => exact Or.inl rfl
    | error e2 => exact Or.inr ⟨e2, rfl⟩

/-! ## C10: empty-string annotation -/

/-- C10: a resource whose expiry annotation is present but equal to the
empty string behaves exactly like one with no annotation at all: the same
(empty) result, no Invalid log line, no counter, no deletion, and the
decision is NoExpiry. -/
theorem C10_empty_value_like_absent (df : String → Option String) (now : PyDateTime)
    (dry : Bool) (nm : String) (m : List (String × String))
    (h : m.lookup EXPIRY_ANNOTATION_KEY = some "") :
    handle_trainingportal_expiry df now ⟨nm, some m⟩ dry
      = handle_trainingportal_expiry df now ⟨nm, none⟩ dry ∧
    handle_trainingportal_expiry df now ⟨nm, some m⟩ dry = emptyHandleResult ∧
    evaluate (some m) now = .noExpiry := by
  cases m with
  | nil => simp [List.lookup] at h
  | cons kv rest =>
    have hg : getExpiryFromAnn (some (kv :: rest)) = some "" := by
      simp [getExpiryFromAnn, h]
    have h1 : handle_trainingportal_expiry df now ⟨nm, some (kv :: rest)⟩ dry
        = emptyHandleResult := by
      simp [handle_trainingportal_expiry, hg]
    have h2 : handle_trainingportal_expiry df now ⟨nm, none⟩ dry = emptyHandleResult := rfl
    exact ⟨h1.trans h2.symm, h1, by simp [evaluate, hg]⟩

/-- Witness for C10: the singleton map carrying an empty expiry value. -/
theorem C10_empty_value_like_absent_witness :
    handle_trainingportal_expiry (fun _ => none) ⟨2023, 1, 1, 0, 0, 0⟩
      ⟨"tp1", some [(EXPIRY_ANNOTATION_KEY, "")]⟩ false = emptyHandleResult :=
  (C10_empty_value_like_absent (fun _ => none) ⟨2023, 1, 1, 0, 0, 0⟩ false "tp1"
    [(EXPIRY_ANNOTATION_KEY, "")] (by simp [List.lookup])).2.1

end TrainingportalJanitor
